import Mathlib

/-
Verification development for the cookiecutter data-science template.

Embedded code:
- src/.../data/make_dataset.py        (function preprocessing)
- src/.../utils/hypothesis_testing.py (chi2_independence_test, kruskal_wallis_test)

DataFrames are modelled as tables of named columns; numeric values as rationals.
Python exceptions are modelled with an Except monad.
-/

/-- Decidable equality on Except, used to evaluate the embedded functions on
concrete inputs. -/
instance instDecEqExcept {ε α : Type} [DecidableEq ε] [DecidableEq α] :
    DecidableEq (Except ε α)
  | .error a, .error b =>
    if h : a = b then .isTrue (h ▸ rfl) else .isFalse (fun hh => h (Except.error.inj hh))
  | .error _, .ok _ => .isFalse (fun hh => Except.noConfusion hh)
  | .ok _, .error _ => .isFalse (fun hh => Except.noConfusion hh)
  | .ok a, .ok b =>
    if h : a = b then .isTrue (h ▸ rfl) else .isFalse (fun hh => h (Except.ok.inj hh))

namespace MakeDataset

/-- A pandas column dtype payload: a numeric column or an object/category
(string) column.  select_dtypes in the source partitions on exactly this split
(include=['number'] vs include=['object', 'category']). -/
inductive ColData where
  | nums (vals : List Rat)
  | strs (vals : List String)
deriving DecidableEq

/-- A named DataFrame column. -/
structure Col where
  name : String
  data : ColData
deriving DecidableEq

/-- A pandas DataFrame: a row count (the index length) and an ordered list of
named columns. -/
structure Table where
  nrows : Nat
  cols : List Col
deriving DecidableEq

def Col.isNum (c : Col) : Bool :=
  match c.data with
  | .nums _ => true
  | .strs _ => false

def Table.colNames (t : Table) : List String := t.cols.map (·.name)

/-- Line 69: num_feat = train_df.select_dtypes(include=['number']).columns
(order of the original table is preserved). -/
def num_feat (df : Table) : List String :=
  (df.cols.filter (·.isNum)).map (·.name)

/-- Line 70: cat_feat = train_df.select_dtypes(include=['object', 'category']).columns. -/
def cat_feat (df : Table) : List String :=
  (df.cols.filter (fun c => !c.isNum)).map (·.name)

/-- The Python exceptions the embedded code can raise. -/
inductive PyError where
  | unboundLocalError
  | typeError
  | valueError
  | keyError
deriving DecidableEq

/-- The scaler objects that the selection code can actually construct.
StandardScaler and PowerTransformer never arise: see selectScaler. -/
inductive ScalerKind where
  | minmax
  | robust
deriving DecidableEq

/-- Lines 72-80: scaler selection.  'minmax' and 'robust' assign MinMaxScaler
and RobustScaler.  On every other value of scaler_type the chain reaches
`elif scaler == 'power':`, which reads the local variable `scaler` before any
assignment to it, so Python raises UnboundLocalError; the PowerTransformer and
StandardScaler branches are unreachable. -/
def selectScaler (scaler_type : String) : Except PyError ScalerKind :=
  if scaler_type = "minmax" then .ok .minmax
  else if scaler_type = "robust" then .ok .robust
  else .error .unboundLocalError

/-- The encoder objects constructible at lines 88-95. -/
inductive EncoderKind where
  | label
  | ordinal
  | onehotDropFirst
deriving DecidableEq

/-- Python dict lookup d.get(k) on a dict modelled as an association list. -/
def dictGet (d : List (String × String)) (k : String) : Option String :=
  (d.find? (fun kv => kv.1 = k)).map (·.2)

/-- Lines 87-95: per-column encoder resolution.  `if encoder_type and cat_col
in encoder_type` is false both for encoder_type=None and for an empty dict,
which the empty association list models; then 'label' gives LabelEncoder,
'ordinal' gives OrdinalEncoder, and any other mapped value, like an absent
key, gives OneHotEncoder(sparse_output=False, drop='first'). -/
def selectEncoder (encoder_type : List (String × String)) (cat_col : String) : EncoderKind :=
  match dictGet encoder_type cat_col with
  | some v => if v = "label" then .label else if v = "ordinal" then .ordinal else .onehotDropFirst
  | none => .onehotDropFirst

/-- Lines 85-98: the loop over categorical columns.  Each iteration resolves an
encoder and then executes `transformers.append(f'cat_{cat_col}', encoder,
[cat_col])`.  list.append takes exactly one argument, so the three-argument
call raises TypeError on the first iteration; no categorical transformer is
ever added to the list, and the loop only completes normally when cat_feat is
empty. -/
def catTransformersLoop (encoder_type : List (String × String)) :
    List String → Except PyError Unit
  | [] => .ok ()
  | cat_col :: _ =>
    let _encoder := selectEncoder encoder_type cat_col
    .error .typeError

def listMin : List Rat → Rat
  | [] => 0
  | x :: xs => xs.foldl min x

def listMax : List Rat → Rat
  | [] => 0
  | x :: xs => xs.foldl max x

def insertSorted (x : Rat) : List Rat → List Rat
  | [] => [x]
  | y :: ys => if x ≤ y then x :: y :: ys else y :: insertSorted x ys

def sortRat (xs : List Rat) : List Rat := xs.foldr insertSorted []

/-- numpy percentile with the default linear interpolation, on an already
sorted nonempty list: h = (n-1) * q/100, result = s[floor h] + (h - floor h) *
(s[floor h + 1] - s[floor h]). -/
def percentileSorted (s : List Rat) (q : Rat) : Rat :=
  let n := s.length
  let h : Rat := ((n : Rat) - 1) * q / 100
  let i : Int := h.floor
  let lo := s.getD i.toNat 0
  let hi := s.getD (i.toNat + 1) lo
  lo + (h - (i : Rat)) * (hi - lo)

/-- sklearn _handle_zeros_in_scale: a feature with zero scale is left
unscaled, i.e. its scale is replaced by 1. -/
def handleZeroInScale (s : Rat) : Rat := if s = 0 then 1 else s

/-- Fitting the selected scaler on one training column: both reachable scalers
reduce to a (center, scale) pair.  MinMaxScaler with the default range (0,1)
subtracts the minimum and divides by max-min; RobustScaler subtracts the
median and divides by the interquartile range. -/
def fitScalerCol (kind : ScalerKind) (vs : List Rat) : Rat × Rat :=
  match kind with
  | .minmax => (listMin vs, handleZeroInScale (listMax vs - listMin vs))
  | .robust =>
    let s := sortRat vs
    (percentileSorted s 50, handleZeroInScale (percentileSorted s 75 - percentileSorted s 25))

/-- Applying a fitted (center, scale) pair to one column, elementwise. -/
def transformCol (p : Rat × Rat) (vs : List Rat) : List Rat :=
  vs.map (fun x => (x - p.1) / p.2)

def Table.getCol? (t : Table) (nm : String) : Option Col :=
  t.cols.find? (·.name = nm)

/-- Column selection by label, as the fitted ColumnTransformer performs it:
a missing label raises KeyError, and a string column fed to a scaler fails
check_array (ValueError: could not convert string to float). -/
def getNumColVals (df : Table) (nm : String) : Except PyError (List Rat) :=
  match df.getCol? nm with
  | none => .error .keyError
  | some c =>
    match c.data with
    | .nums vs => .ok vs
    | .strs _ => .error .valueError

/-- Line 103: preprocessor.fit_transform(train_df) for the one surviving
transformer ('num', scaler, num_feat).  ColumnTransformer skips a transformer
whose column selection is empty; otherwise check_array demands at least one
sample, the scaler is fit per column and the same columns are transformed. -/
def fit_transform_num (kind : ScalerKind) (numf : List String) (df : Table) :
    Except PyError (List (Rat × Rat) × List (List Rat)) :=
  if numf.isEmpty then .ok ([], [])
  else if df.nrows = 0 then .error .valueError
  else do
    let colVals ← numf.mapM (getNumColVals df)
    let params := colVals.map (fitScalerCol kind)
    .ok (params, (params.zip colVals).map (fun pc => transformCol pc.1 pc.2))

/-- Line 104: preprocessor.transform(test_df): the fitted per-column
parameters are applied unchanged to the test table's columns of the same
names. -/
def transform_num (params : List (Rat × Rat)) (numf : List String) (df : Table) :
    Except PyError (List (List Rat)) :=
  if numf.isEmpty then .ok []
  else if df.nrows = 0 then .error .valueError
  else do
    let colVals ← numf.mapM (getNumColVals df)
    .ok ((params.zip colVals).map (fun pc => transformCol pc.1 pc.2))

/-- Lines 111-116: reconstruction of the categorical output column names.  For
a column explicitly mapped to 'onehot' the code reads
preprocessor.named_transformers_[f'cat_{col}']; since no 'cat_*' transformer
was ever appended, that subscript would raise KeyError.  Every other column
contributes its own name unchanged. -/
def catColNamesLoop (encoder_type : List (String × String)) :
    List String → Except PyError (List String)
  | [] => .ok []
  | cat_col :: rest =>
    if dictGet encoder_type cat_col = some "onehot" then .error .keyError
    else do
      let more ← catColNamesLoop encoder_type rest
      .ok (cat_col :: more)

/-- Lines 120-121: pd.DataFrame(array, columns=names).  pandas raises
ValueError when the number of names differs from the number of array columns;
otherwise the result is a fresh table with the array's row count. -/
def mkDataFrame (nrows : Nat) (dataCols : List (List Rat)) (names : List String) :
    Except PyError Table :=
  if names.length = dataCols.length then
    .ok ⟨nrows, (names.zip dataCols).map (fun nc => ⟨nc.1, .nums nc.2⟩)⟩
  else .error .valueError

/-- Lines 69-123: the whole preprocessing function, as written (bugs
included).  In the source scaler_type defaults to 'standard' and encoder_type
defaults to None; the empty association list models None. -/
def preprocessing (train_df test_df : Table) (scaler_type : String)
    (encoder_type : List (String × String)) : Except PyError (Table × Table) := do
  let numf := num_feat train_df
  let catf := cat_feat train_df
  let scaler ← selectScaler scaler_type
  let _u ← catTransformersLoop encoder_type catf
  let fitRes ← fit_transform_num scaler numf train_df
  let testCols ← transform_num fitRes.1 numf test_df
  let cat_col_names ← catColNamesLoop encoder_type catf
  let all_col_names := numf ++ cat_col_names
  let train_out ← mkDataFrame train_df.nrows fitRes.2 all_col_names
  let test_out ← mkDataFrame test_df.nrows testCols all_col_names
  .ok (train_out, test_out)

/-- A two-row table with one numeric column x = [1, 2]. -/
def numTable : Table := ⟨2, [⟨"x", ColData.nums [1, 2]⟩]⟩

/-- A two-row table with one categorical column city = [NY, LA]. -/
def catTable : Table := ⟨2, [⟨"city", ColData.strs ["NY", "LA"]⟩]⟩

/-- A three-row table with one categorical column col = [A, B, C]. -/
def catTableABC : Table := ⟨3, [⟨"col", ColData.strs ["A", "B", "C"]⟩]⟩

/-- The table preprocessing actually produces from numTable with the minmax
scaler: x = [1,2] is scaled to [0,1]. -/
def numTableOut : Table := ⟨2, [⟨"x", ColData.nums [0, 1]⟩]⟩

/-- A two-row table with no columns at all. -/
def emptyTable : Table := ⟨2, []⟩

end MakeDataset


namespace HypothesisTesting

/-
utils/hypothesis_testing.py defines chi2_independence_test and
kruskal_wallis_test.  Both have `sig_col: list = []` and `no_sig_col: list =
[]` parameters: Python evaluates a default expression once, at function
definition time, so each function owns two module-level list objects that are
shared by every call that omits the corresponding argument.  The external
pingouin call is modelled by passing its p-value output in as data.
-/

/-- The four module-level default list objects: the sig_col/no_sig_col
defaults of chi2_independence_test and those of kruskal_wallis_test. -/
structure ModuleState where
  chi2_sig : List String
  chi2_no_sig : List String
  kw_sig : List String
  kw_no_sig : List String
deriving DecidableEq

/-- Lines 57-59: stat_sign = stats['pval'] < alpha; stat_sign.any() — the
test is treated as significant when any p-value in the stats table is below
alpha. -/
def chi2_significant (pvals : List Rat) (alpha : Rat) : Bool :=
  pvals.any (fun p => decide (p < alpha))

/-- Lines 5-67: chi2_independence_test.  `pvals` stands for the pval column
of the stats table returned by pingouin.chi2_independence.  An omitted
sig_col or no_sig_col argument (modelled as none) means the shared default
list object is used; list.append mutates whichever list object is in hand,
and the function returns the two list objects it used. -/
def chi2_independence_test (st : ModuleState) (pvals : List Rat) (sec_cat : String)
    (sig_col no_sig_col : Option (List String)) (alpha : Rat) :
    (List String × List String) × ModuleState :=
  let s := sig_col.getD st.chi2_sig
  let n := no_sig_col.getD st.chi2_no_sig
  if chi2_significant pvals alpha then
    let s2 := s ++ [sec_cat]
    ((s2, n), ⟨(if sig_col.isNone then s2 else st.chi2_sig), st.chi2_no_sig,
      st.kw_sig, st.kw_no_sig⟩)
  else
    let n2 := n ++ [sec_cat]
    ((s, n2), ⟨st.chi2_sig, (if no_sig_col.isNone then n2 else st.chi2_no_sig),
      st.kw_sig, st.kw_no_sig⟩)

/-- Lines 69-127: kruskal_wallis_test.  `p_unc` stands for
results['p-unc'].iloc[0] from pingouin.kruskal; the appended name is the
numerical feature.  Default-list sharing is as in chi2_independence_test but
with this function's own two default objects. -/
def kruskal_wallis_test (st : ModuleState) (p_unc : Rat) (num_feat : String)
    (sig_col no_sig_col : Option (List String)) (alpha : Rat) :
    (List String × List String) × ModuleState :=
  let s := sig_col.getD st.kw_sig
  let n := no_sig_col.getD st.kw_no_sig
  if p_unc < alpha then
    let s2 := s ++ [num_feat]
    ((s2, n), ⟨st.chi2_sig, st.chi2_no_sig,
      (if sig_col.isNone then s2 else st.kw_sig), st.kw_no_sig⟩)
  else
    let n2 := n ++ [num_feat]
    ((s, n2), ⟨st.chi2_sig, st.chi2_no_sig,
      st.kw_sig, (if no_sig_col.isNone then n2 else st.kw_no_sig)⟩)

end HypothesisTesting

namespace MakeDataset

lemma mkDataFrame_ok_colNames {n : Nat} {dataCols : List (List Rat)}
    {names : List String} {t : Table} (h : mkDataFrame n dataCols names = .ok t) :
    t.colNames = names := by
  rw [mkDataFrame] at h
  by_cases hlen : names.length = dataCols.length
  · rw [if_pos hlen] at h
    injection h with h2
    subst h2
    simp only [Table.colNames, List.map_map]
    have : ((fun c : Col => c.name) ∘ fun nc : String × List Rat =>
        (⟨nc.1, ColData.nums nc.2⟩ : Col)) = Prod.fst := rfl
    rw [this]
    exact List.map_fst_zip names dataCols (le_of_eq hlen)
  · rw [if_neg hlen] at h
    exact absurd h (by simp)

lemma preprocessing_ok_parts {train test : Table} {st : String}
    {et : List (String × String)} {t1 t2 : Table}
    (h : preprocessing train test st et = .ok (t1, t2)) :
    ∃ sc fitRes testCols cs,
      selectScaler st = .ok sc ∧
      catTransformersLoop et (cat_feat train) = .ok () ∧
      fit_transform_num sc (num_feat train) train = .ok fitRes ∧
      transform_num fitRes.1 (num_feat train) test = .ok testCols ∧
      catColNamesLoop et (cat_feat train) = .ok cs ∧
      mkDataFrame train.nrows fitRes.2 (num_feat train ++ cs) = .ok t1 ∧
      mkDataFrame test.nrows testCols (num_feat train ++ cs) = .ok t2 := by
  simp only [preprocessing, Bind.bind, Except.bind] at h
  cases h1 : selectScaler st with
  | error e => rw [h1] at h; simp at h
  | ok sc =>
  rw [h1] at h
  simp only [] at h
  cases h2 : catTransformersLoop et (cat_feat train) with
  | error e => rw [h2] at h; simp at h
  | ok u =>
  rw [h2] at h
  simp only [] at h
  cases h3 : fit_transform_num sc (num_feat train) train with
  | error e => rw [h3] at h; simp at h
  | ok fitRes =>
  rw [h3] at h
  simp only [] at h
  cases h4 : transform_num fitRes.1 (num_feat train) test with
  | error e => rw [h4] at h; simp at h
  | ok testCols =>
  rw [h4] at h
  simp only [] at h
  cases h5 : catColNamesLoop et (cat_feat train) with
  | error e => rw [h5] at h; simp at h
  | ok cs =>
  rw [h5] at h
  simp only [] at h
  cases h6 : mkDataFrame train.nrows fitRes.2 (num_feat train ++ cs) with
  | error e => rw [h6] at h; simp at h
  | ok tA =>
  rw [h6] at h
  simp only [] at h
  cases h7 : mkDataFrame test.nrows testCols (num_feat train ++ cs) with
  | error e => rw [h7] at h; simp at h
  | ok tB =>
  rw [h7] at h
  simp only [] at h
  injection h with hp
  cases u
  exact ⟨sc, fitRes, testCols, cs, rfl, rfl, h3, h4, rfl,
    by rw [h6, (Prod.mk.injEq _ _ _ _).mp hp |>.1],
    by rw [h7, (Prod.mk.injEq _ _ _ _).mp hp |>.2]⟩

end MakeDataset

namespace MakeDataset

/-- Claim C1: refuted as stated and traced to a code bug.  The claim says
preprocessing selects MinMaxScaler for 'minmax', RobustScaler for 'robust',
PowerTransformer for 'power' and StandardScaler for every other value of
scaler_type, never failing on that argument.  In the code, 'minmax' and
'robust' do select their scalers, but any other value (including the default
'standard' and 'power' itself) raises UnboundLocalError at the condition
`elif scaler == 'power':`, which reads the local variable `scaler` before it
was ever assigned, so the whole call fails. -/
theorem scaler_selection_raises_on_default :
    selectScaler "minmax" = .ok .minmax ∧
    selectScaler "robust" = .ok .robust ∧
    selectScaler "standard" = .error .unboundLocalError ∧
    selectScaler "power" = .error .unboundLocalError ∧
    selectScaler "zscore" = .error .unboundLocalError ∧
    preprocessing numTable numTable "standard" [] = .error .unboundLocalError := by
  decide

/-- Claim C2: the code fails on valid inputs the claim covers.  With train =
test = a table holding one categorical column (a valid matching-schema pair),
the call with default arguments raises UnboundLocalError at the scaler
selection, and with scaler_type='minmax' it raises TypeError at the
three-argument transformers.append call; in neither case are two tables
returned, let alone row-preserving ones. -/
theorem preprocessing_fails_on_valid_pairs :
    preprocessing catTable catTable "standard" [] = .error .unboundLocalError ∧
    preprocessing catTable catTable "minmax" [] = .error .typeError ∧
    preprocessing numTable numTable "standard" [] = .error .unboundLocalError := by
  decide

/-- Claim C3: the one-hot path never runs.  For a table whose single
categorical column has the three training categories A, B, C, every call that
reaches the categorical loop dies with TypeError at the three-argument
transformers.append call, whether one-hot encoding is requested explicitly or
applied by default, so no k-1 one-hot columns are ever produced. -/
theorem preprocessing_onehot_never_produces_columns :
    preprocessing catTableABC catTableABC "minmax" [] = .error .typeError ∧
    preprocessing catTableABC catTableABC "minmax" [("col", "onehot")] = .error .typeError ∧
    preprocessing catTableABC catTableABC "robust" [("col", "onehot")] = .error .typeError := by
  decide

/-- Claim C4: the encoder-resolution logic of lines 87-95 does match the
claim ('label' to LabelEncoder, 'ordinal' to OrdinalEncoder, any other mapped
value to OneHotEncoder, absent or None mapping to OneHotEncoder with the
first category dropped), but the resolved encoder is never fit or applied:
the very next statement is the three-argument transformers.append call, which
raises TypeError on the first categorical column. -/
theorem encoder_resolution_matches_but_never_fit :
    selectEncoder [("city", "label")] "city" = .label ∧
    selectEncoder [("city", "ordinal")] "city" = .ordinal ∧
    selectEncoder [("city", "onehot")] "city" = .onehotDropFirst ∧
    selectEncoder [("city", "frequency")] "city" = .onehotDropFirst ∧
    selectEncoder [("other", "label")] "city" = .onehotDropFirst ∧
    selectEncoder [] "city" = .onehotDropFirst ∧
    preprocessing catTable catTable "minmax" [("city", "label")] = .error .typeError := by
  decide

/-- Claim C5: on every call of preprocessing that returns successfully, the
two output tables carry identical column names in identical order, and that
order is the numeric columns of train_df in their original order followed by
the names contributed by the categorical columns in their original order. -/
theorem preprocessing_output_column_order (train test : Table) (st : String)
    (et : List (String × String)) (t1 t2 : Table)
    (h : preprocessing train test st et = .ok (t1, t2)) :
    t1.colNames = t2.colNames ∧
    ∃ cs, catColNamesLoop et (cat_feat train) = .ok cs ∧
      t1.colNames = num_feat train ++ cs := by
  obtain ⟨sc, fitRes, testCols, cs, _, _, _, _, h5, h6, h7⟩ := preprocessing_ok_parts h
  have e1 := mkDataFrame_ok_colNames h6
  have e2 := mkDataFrame_ok_colNames h7
  exact ⟨by rw [e1, e2], cs, h5, e1⟩

/-- Claim C5 witness: the theorem applied to a concrete successful call. -/
theorem preprocessing_output_column_order_witness :
    emptyTable.colNames = emptyTable.colNames ∧
    ∃ cs, catColNamesLoop [] (cat_feat emptyTable) = .ok cs ∧
      emptyTable.colNames = num_feat emptyTable ++ cs :=
  preprocessing_output_column_order emptyTable emptyTable "minmax" [] emptyTable emptyTable
    (by decide)

/-- Claim C6: the label/ordinal path never runs.  A call on a table with a
categorical column mapped to 'label' or 'ordinal' raises TypeError at the
three-argument transformers.append call before any encoder is fit, so the
promised single integer-coded output column is never produced. -/
theorem label_ordinal_encoding_never_runs :
    preprocessing catTable catTable "minmax" [("city", "ordinal")] = .error .typeError ∧
    preprocessing catTable catTable "robust" [("city", "label")] = .error .typeError := by
  decide

/-- Claim C7: preprocessing is a pure function of its four arguments — in
this embedding it can neither mutate its inputs nor leave partial state — and
every call either returns both output tables or fails with an exception;
there is no third outcome and no partial output. -/
theorem preprocessing_all_or_nothing (train test : Table) (st : String)
    (et : List (String × String)) :
    (∃ t1 t2, preprocessing train test st et = .ok (t1, t2)) ∨
    (∃ e, preprocessing train test st et = .error e) := by
  cases h : preprocessing train test st et with
  | ok p => exact .inl ⟨p.1, p.2, rfl⟩
  | error e => exact .inr ⟨e, rfl⟩

/-- Claim C8: preprocessing is deterministic — two calls on equal train
tables, test tables, scaler_type and encoder_type produce equal results,
including equal failure behaviour. -/
theorem preprocessing_deterministic (train train2 test test2 : Table)
    (st st2 : String) (et et2 : List (String × String))
    (h1 : train = train2) (h2 : test = test2) (h3 : st = st2) (h4 : et = et2) :
    preprocessing train test st et = preprocessing train2 test2 st2 et2 := by
  subst h1; subst h2; subst h3; subst h4; rfl

/-- Claim C8 witness: the theorem applied at concrete inputs. -/
theorem preprocessing_deterministic_witness :
    preprocessing catTable catTable "standard" [] =
      preprocessing catTable catTable "standard" [] :=
  preprocessing_deterministic catTable catTable catTable catTable "standard" "standard"
    [] [] rfl rfl rfl rfl

/-- Claim C9 counterexample: the claim says every call whose train table has
a categorical column raises TypeError at the three-argument
transformers.append call, but a call with the default scaler_type='standard'
raises UnboundLocalError at the scaler selection instead and never reaches
that append. -/
theorem preprocessing_cat_default_not_append_error :
    preprocessing catTable catTable "standard" [] = .error .unboundLocalError ∧
    preprocessing catTable catTable "standard" [] ≠ .error .typeError := by
  decide

/-- Claim C9 amended: for every train table with at least one categorical
column, preprocessing raises TypeError at the three-argument
transformers.append call (before any transformer is fit, for any
encoder_type) whenever scaler_type is 'minmax' or 'robust'; for every other
scaler_type it fails even earlier with UnboundLocalError at the scaler
selection.  In no case is an output produced. -/
theorem preprocessing_cat_column_always_raises (train test : Table) (st : String)
    (et : List (String × String)) (hcat : cat_feat train ≠ []) :
    preprocessing train test st et =
      .error (if st = "minmax" ∨ st = "robust" then PyError.typeError
        else PyError.unboundLocalError) := by
  obtain ⟨c, rest, hl⟩ : ∃ c rest, cat_feat train = c :: rest := by
    cases hc : cat_feat train with
    | nil => exact absurd hc hcat
    | cons a b => exact ⟨a, b, rfl⟩
  by_cases h1 : st = "minmax"
  · simp [preprocessing, selectScaler, h1, Bind.bind, Except.bind, hl, catTransformersLoop]
  by_cases h2 : st = "robust"
  · simp [preprocessing, selectScaler, h1, h2, Bind.bind, Except.bind, hl, catTransformersLoop]
  · simp [preprocessing, selectScaler, h1, h2, Bind.bind, Except.bind]

/-- Claim C9 amended witness: the amended theorem applied at a concrete
input. -/
theorem preprocessing_cat_column_always_raises_witness :
    preprocessing catTable catTable "minmax" [] =
      .error (if "minmax" = "minmax" ∨ "minmax" = "robust" then PyError.typeError
        else PyError.unboundLocalError) :=
  preprocessing_cat_column_always_raises catTable catTable "minmax" [] (by decide)

end MakeDataset

namespace HypothesisTesting

/-- Claim C10: each call of chi2_independence_test or kruskal_wallis_test
appends the tested feature name to exactly one of sig_col and no_sig_col
(sig_col when significant at level alpha, no_sig_col otherwise), returns the
very lists it operated on, and leaves the other list unchanged.  When the
arguments are passed explicitly the module-level default objects are
untouched; when they are omitted the shared default objects are used and
updated in place, so successive default-using calls accumulate: two such
chi2 calls grow the stored defaults by exactly two names. -/
theorem hypothesis_tests_append_and_shared_defaults
    (st : ModuleState) (pvals pvals2 : List Rat) (p_unc : Rat) (alpha : Rat)
    (name name2 : String) (s n : List String) :
    (chi2_independence_test st pvals name (some s) (some n) alpha =
      ((if chi2_significant pvals alpha then (s ++ [name], n) else (s, n ++ [name])), st)) ∧
    (chi2_independence_test st pvals name none none alpha =
      (if chi2_significant pvals alpha
        then ((st.chi2_sig ++ [name], st.chi2_no_sig),
          ⟨st.chi2_sig ++ [name], st.chi2_no_sig, st.kw_sig, st.kw_no_sig⟩)
        else ((st.chi2_sig, st.chi2_no_sig ++ [name]),
          ⟨st.chi2_sig, st.chi2_no_sig ++ [name], st.kw_sig, st.kw_no_sig⟩))) ∧
    (kruskal_wallis_test st p_unc name (some s) (some n) alpha =
      ((if p_unc < alpha then (s ++ [name], n) else (s, n ++ [name])), st)) ∧
    (kruskal_wallis_test st p_unc name none none alpha =
      (if p_unc < alpha
        then ((st.kw_sig ++ [name], st.kw_no_sig),
          ⟨st.chi2_sig, st.chi2_no_sig, st.kw_sig ++ [name], st.kw_no_sig⟩)
        else ((st.kw_sig, st.kw_no_sig ++ [name]),
          ⟨st.chi2_sig, st.chi2_no_sig, st.kw_sig, st.kw_no_sig ++ [name]⟩))) ∧
    (((chi2_independence_test (chi2_independence_test st pvals name none none alpha).2
        pvals2 name2 none none alpha).2).chi2_sig.length +
      ((chi2_independence_test (chi2_independence_test st pvals name none none alpha).2
        pvals2 name2 none none alpha).2).chi2_no_sig.length =
      st.chi2_sig.length + st.chi2_no_sig.length + 2) := by
  refine ⟨?_, ?_, ?_, ?_, ?_⟩
  · by_cases hs : chi2_significant pvals alpha <;> simp [chi2_independence_test, hs]
  · by_cases hs : chi2_significant pvals alpha <;> simp [chi2_independence_test, hs]
  · by_cases hs : p_unc < alpha <;> simp [kruskal_wallis_test, hs]
  · by_cases hs : p_unc < alpha <;> simp [kruskal_wallis_test, hs]
  · by_cases hs : chi2_significant pvals alpha <;>
      by_cases hs2 : chi2_significant pvals2 alpha <;>
      simp [chi2_independence_test, hs, hs2] <;> omega

end HypothesisTesting
